import Mathlib

/-!
Verification development for the SpartanEngine RHI layer.

Shallow embedding of three source files:
  * `Runtime/RHI/RHI_PipelineState.cpp` (namespace `Directus`): the mutable
    pipeline-state aggregate with per-category dirty flags and its `Bind`
    commit algorithm.
  * `Runtime/RHI/Vulkan/Vulkan_Pipeline.cpp` (namespace `Spartan`): the
    explicit-pipeline-object constructor and destructor.
  * `Runtime/RHI/D3D11/D3D11_Device.cpp` (namespace `SpartanD3D11`): device
    construction with the debug-layer retry path.

Modelling conventions:
  * raw pointers / `shared_ptr`s are `Option Nat` (`none` = null, `some h` =
    a concrete native handle value);
  * machine floats appear only in equality comparisons and as opaque stored
    values in the modelled fragment, so they are embedded as `Int`;
  * `void` backend calls are recorded as events in a trace; backend calls
    with a success result take their outcome from an explicit environment
    (`Backend`, `VulkanEnv`, `D3DEnv`) passed to the embedded function;
  * a C++ null-pointer dereference is modelled as `none` in an
    `Option`-valued result.
-/

namespace Directus

/-- Enum value `PrimitiveTopology_NotAssigned` (engine enums are embedded as `Nat`). -/
def PrimitiveTopology_NotAssigned : Nat := 0

/-- Enum value `Input_NotAssigned`. -/
def Input_NotAssigned : Nat := 0

/-- Enum value `Cull_NotAssigned`. -/
def Cull_NotAssigned : Nat := 0

/-- Enum value `Fill_NotAssigned`. -/
def Fill_NotAssigned : Nat := 0

/-- Modelled from the spec: `Buffer_Scope` (its header is not under `src/`).
The spec gives the visibility scopes of a constant-buffer binding as
PerDraw and Global; the embedded code only stores and forwards the value. -/
inductive Buffer_Scope where
  | perDraw
  | global
deriving DecidableEq, Repr

/-- `RHI_Viewport` as used by `RHI_PipelineState.cpp`: six float fields.
Only constructed with explicit values and compared for equality, so the
fields are embedded as `Int`. -/
structure RHI_Viewport where
  x : Int
  y : Int
  width : Int
  height : Int
  depth_min : Int
  depth_max : Int
deriving DecidableEq, Repr

/-- `D3D11_InputLayout` as consumed by `SetInputLayout`: the getters
`GetInputLayout()` (an enum value) and `GetInputLayoutBuffer()` (a native
pointer). -/
structure D3D11_InputLayout where
  inputLayout : Nat
  inputLayoutBuffer : Option Nat
deriving DecidableEq, Repr

/-- `RHI_Shader` as consumed by `SetShader`: the getters the setter calls.
`inputLayoutObj` is `GetInputLayout()` (dereferenced by `SetInputLayout`
without a null check, so it is embedded non-optional), `constantBuffer` is
`GetConstantBuffer()` (checked for null, then its `GetBuffer()` value is
stored). -/
structure RHI_Shader where
  inputLayoutObj : D3D11_InputLayout
  constantBuffer : Option Nat
  bufferSlot : Nat
  bufferScope : Buffer_Scope
  vertexShaderBuffer : Option Nat
  pixelShaderBuffer : Option Nat
deriving DecidableEq, Repr

/-- One entry of `m_constantBuffersInfo`: `(buffer, slot, scope)` as stored
by `SetConstantBuffer` (the buffer is `constantBuffer->GetBuffer()`). -/
structure ConstantBufferInfo where
  buffer : Nat
  slot : Nat
  scope : Buffer_Scope
deriving DecidableEq, Repr

/-- The state of a `Directus::RHI_PipelineState`, field for field.
`m_rhiDevice` embeds the validity of the device `shared_ptr` (`Bind` only
tests it for null). The five dirty flags that the C++ constructor body does
not initialize (`m_viewportDirty`, `m_primitiveTopologyDirty`,
`m_inputLayoutDirty`, `m_cullModeDirty`, `m_fillModeDirty`) are declared in
the header, which is not under `src/`; per the spec's dirty-flag invariant
they start clear, and `construct` below initializes them to `false`. -/
structure RHI_PipelineState where
  m_rhiDevice : Bool
  m_primitiveTopology : Nat
  m_inputLayout : Nat
  m_cullMode : Nat
  m_fillMode : Nat
  m_inputLayoutBuffer : Option Nat
  m_vertexShader : Option Nat
  m_pixelShader : Option Nat
  m_indexBuffer : Option Nat
  m_vertexBuffer : Option Nat
  m_viewport : RHI_Viewport
  m_samplers : List Nat
  m_textures : List (Option Nat)
  m_constantBuffersInfo : List ConstantBufferInfo
  m_viewportDirty : Bool
  m_vertexShaderDirty : Bool
  m_pixelShaderDirty : Bool
  m_primitiveTopologyDirty : Bool
  m_inputLayoutDirty : Bool
  m_cullModeDirty : Bool
  m_fillModeDirty : Bool
  m_samplersDirty : Bool
  m_texturesDirty : Bool
  m_indexBufferDirty : Bool
  m_vertexBufferDirty : Bool
  m_constantBufferDirty : Bool
deriving DecidableEq, Repr

/-- The constructor `RHI_PipelineState::RHI_PipelineState(shared_ptr<RHI_Device>)`.
The default-constructed `m_viewport` value comes from the header (not under
`src/`); a zero viewport with `depth_max = 1` is used, which no theorem
below depends on. -/
def RHI_PipelineState.construct (deviceValid : Bool) : RHI_PipelineState where
  m_rhiDevice := deviceValid
  m_primitiveTopology := PrimitiveTopology_NotAssigned
  m_inputLayout := Input_NotAssigned
  m_cullMode := Cull_NotAssigned
  m_fillMode := Fill_NotAssigned
  m_inputLayoutBuffer := none
  m_vertexShader := none
  m_pixelShader := none
  m_indexBuffer := none
  m_vertexBuffer := none
  m_viewport := ⟨0, 0, 0, 0, 0, 1⟩
  m_samplers := []
  m_textures := []
  m_constantBuffersInfo := []
  m_viewportDirty := false
  m_vertexShaderDirty := false
  m_pixelShaderDirty := false
  m_primitiveTopologyDirty := false
  m_inputLayoutDirty := false
  m_cullModeDirty := false
  m_fillModeDirty := false
  m_samplersDirty := false
  m_texturesDirty := false
  m_indexBufferDirty := false
  m_vertexBufferDirty := false
  m_constantBufferDirty := false

/-- `RHI_PipelineState::SetInputLayout`. A null `shared_ptr` argument is
dereferenced without a check (`inputLayout->GetInputLayout()`), modelled as
`none`. If the layout is already active the setter returns `false` without
any state change; otherwise it stores the layout, its buffer, and raises
the dirty flag. -/
def RHI_PipelineState.SetInputLayout (inputLayout : Option D3D11_InputLayout)
    (s : RHI_PipelineState) : Option (Bool × RHI_PipelineState) :=
  match inputLayout with
  | none => none
  | some il =>
    if s.m_inputLayout = il.inputLayout then
      some (false, s)
    else
      some (true, { s with
        m_inputLayout := il.inputLayout
        m_inputLayoutBuffer := il.inputLayoutBuffer
        m_inputLayoutDirty := true })

/-- `RHI_PipelineState::SetConstantBuffer(buffer, slot, scope)`. The
`void`-returning setter performs no null check and immediately calls
`constantBuffer->GetBuffer()`; a null argument is therefore a crash,
modelled as `none`. Otherwise it appends `(buffer, slot, scope)` to
`m_constantBuffersInfo` and raises the dirty flag. -/
def RHI_PipelineState.SetConstantBuffer (constantBuffer : Option Nat) (slot : Nat)
    (scope : Buffer_Scope) (s : RHI_PipelineState) : Option RHI_PipelineState :=
  match constantBuffer with
  | none => none
  | some cb =>
    some { s with
      m_constantBuffersInfo := s.m_constantBuffersInfo ++ [⟨cb, slot, scope⟩]
      m_constantBufferDirty := true }

/-- `RHI_PipelineState::SetShader`. Rejects a null shader. Otherwise it
calls `SetInputLayout(shader->GetInputLayout())` (the argument is non-null
here, so the inner call cannot crash), conditionally registers the
shader's constant buffer, and raises both shader dirty flags. -/
def RHI_PipelineState.SetShader (shader : Option RHI_Shader)
    (s : RHI_PipelineState) : Bool × RHI_PipelineState :=
  match shader with
  | none => (false, s)
  | some sh =>
    let s1 := match RHI_PipelineState.SetInputLayout (some sh.inputLayoutObj) s with
      | some r => r.2
      | none => s
    let s2 := match sh.constantBuffer with
      | some cbObj =>
        (RHI_PipelineState.SetConstantBuffer (some cbObj) sh.bufferSlot sh.bufferScope s1).getD s1
      | none => s1
    (true, { s2 with
      m_vertexShader := sh.vertexShaderBuffer
      m_vertexShaderDirty := true
      m_pixelShader := sh.pixelShaderBuffer
      m_pixelShaderDirty := true })

/-- `RHI_PipelineState::SetIndexBuffer`. Rejects null; otherwise stores the
buffer and raises the dirty flag unconditionally (no value comparison). -/
def RHI_PipelineState.SetIndexBuffer (indexBuffer : Option Nat)
    (s : RHI_PipelineState) : Bool × RHI_PipelineState :=
  match indexBuffer with
  | none => (false, s)
  | some _ =>
    (true, { s with m_indexBuffer := indexBuffer, m_indexBufferDirty := true })

/-- `RHI_PipelineState::SetVertexBuffer`. Rejects null; otherwise stores the
buffer and raises the dirty flag unconditionally (no value comparison). -/
def RHI_PipelineState.SetVertexBuffer (vertexBuffer : Option Nat)
    (s : RHI_PipelineState) : Bool × RHI_PipelineState :=
  match vertexBuffer with
  | none => (false, s)
  | some _ =>
    (true, { s with m_vertexBuffer := vertexBuffer, m_vertexBufferDirty := true })

/-- `RHI_PipelineState::SetSampler`. Rejects null; otherwise appends
`sampler->GetBuffer()` (the sampler object is embedded by that value) and
raises the dirty flag. -/
def RHI_PipelineState.SetSampler (sampler : Option Nat)
    (s : RHI_PipelineState) : Bool × RHI_PipelineState :=
  match sampler with
  | none => (false, s)
  | some b =>
    (true, { s with m_samplers := s.m_samplers ++ [b], m_samplersDirty := true })

/-- `RHI_PipelineState::SetTexture`. Null is explicitly allowed ("allow for
null texture to be bound so we can maintain slot order"): the value is
appended as-is and the dirty flag raised. -/
def RHI_PipelineState.SetTexture (shaderResource : Option Nat)
    (s : RHI_PipelineState) : Bool × RHI_PipelineState :=
  (true, { s with m_textures := s.m_textures ++ [shaderResource], m_texturesDirty := true })

/-- `RHI_PipelineState::SetPrimitiveTopology`. Equal value: no-op. -/
def RHI_PipelineState.SetPrimitiveTopology (primitiveTopology : Nat)
    (s : RHI_PipelineState) : RHI_PipelineState :=
  if s.m_primitiveTopology = primitiveTopology then s
  else { s with
    m_primitiveTopology := primitiveTopology
    m_primitiveTopologyDirty := true }

/-- `RHI_PipelineState::SetCullMode`. Equal value: no-op. -/
def RHI_PipelineState.SetCullMode (cullMode : Nat)
    (s : RHI_PipelineState) : RHI_PipelineState :=
  if s.m_cullMode = cullMode then s
  else { s with m_cullMode := cullMode, m_cullModeDirty := true }

/-- `RHI_PipelineState::SetFillMode`. Equal value: no-op. -/
def RHI_PipelineState.SetFillMode (fillMode : Nat)
    (s : RHI_PipelineState) : RHI_PipelineState :=
  if s.m_fillMode = fillMode then s
  else { s with m_fillMode := fillMode, m_fillModeDirty := true }

/-- `RHI_PipelineState::SetViewport(width, height)`. Compares only width and
height against the stored viewport; on change stores
`RHI_Viewport(0, 0, width, height, 0, 1)` and raises the dirty flag. -/
def RHI_PipelineState.SetViewport (width height : Int)
    (s : RHI_PipelineState) : RHI_PipelineState :=
  if s.m_viewport.width = width ∧ s.m_viewport.height = height then s
  else { s with
    m_viewport := ⟨0, 0, width, height, 0, 1⟩
    m_viewportDirty := true }

/-- One backend call issued by `Bind`, with the arguments the code passes.
`bindSamplers`/`bindTextures` carry the start slot, the element count and
the whole accumulated array (one batched call); `bindConstantBuffers`
carries one binding (`Bind` issues it once per accumulated entry, with
count 1). -/
inductive Event where
  | setViewport (v : RHI_Viewport)
  | bindVertexShader (p : Option Nat)
  | bindPixelShader (p : Option Nat)
  | setPrimitiveTopology (t : Nat)
  | setInputLayout (b : Option Nat)
  | setCullMode (c : Nat)
  | setFillMode (f : Nat)
  | bindSamplers (startSlot count : Nat) (data : List Nat)
  | bindTextures (startSlot count : Nat) (data : List (Option Nat))
  | bindIndexBuffer (b : Option Nat)
  | bindVertexBuffer (b : Option Nat)
  | bindConstantBuffers (slot count : Nat) (scope : Buffer_Scope) (buffer : Nat)
deriving DecidableEq, Repr

/-- The twelve state categories of `Bind`, in the commit order of the code. -/
inductive Cat where
  | viewport
  | vertexShader
  | pixelShader
  | topology
  | inputLayout
  | cullMode
  | fillMode
  | samplers
  | textures
  | indexBuffer
  | vertexBuffer
  | constantBuffers
deriving DecidableEq, Repr

/-- The category of a backend call. -/
def Event.category : Event → Cat
  | .setViewport _ => .viewport
  | .bindVertexShader _ => .vertexShader
  | .bindPixelShader _ => .pixelShader
  | .setPrimitiveTopology _ => .topology
  | .setInputLayout _ => .inputLayout
  | .setCullMode _ => .cullMode
  | .setFillMode _ => .fillMode
  | .bindSamplers _ _ _ => .samplers
  | .bindTextures _ _ _ => .textures
  | .bindIndexBuffer _ => .indexBuffer
  | .bindVertexBuffer _ => .vertexBuffer
  | .bindConstantBuffers _ _ _ _ => .constantBuffers

/-- The position of a category in the fixed commit order of `Bind`:
viewport, vertex shader, pixel shader, topology, input layout, cull mode,
fill mode, samplers, textures, index buffer, vertex buffer, constant
buffers. -/
def catRank : Cat → Nat
  | .viewport => 0
  | .vertexShader => 1
  | .pixelShader => 2
  | .topology => 3
  | .inputLayout => 4
  | .cullMode => 5
  | .fillMode => 6
  | .samplers => 7
  | .textures => 8
  | .indexBuffer => 9
  | .vertexBuffer => 10
  | .constantBuffers => 11

/-- Rank of an event = rank of its category. -/
def Event.rank (e : Event) : Nat := catRank e.category

/-- The dirty flag of a category in a pipeline state. -/
def dirtyOf (s : RHI_PipelineState) : Cat → Bool
  | .viewport => s.m_viewportDirty
  | .vertexShader => s.m_vertexShaderDirty
  | .pixelShader => s.m_pixelShaderDirty
  | .topology => s.m_primitiveTopologyDirty
  | .inputLayout => s.m_inputLayoutDirty
  | .cullMode => s.m_cullModeDirty
  | .fillMode => s.m_fillModeDirty
  | .samplers => s.m_samplersDirty
  | .textures => s.m_texturesDirty
  | .indexBuffer => s.m_indexBufferDirty
  | .vertexBuffer => s.m_vertexBufferDirty
  | .constantBuffers => s.m_constantBufferDirty

/-- Number of backend calls of category `c` in a trace. -/
def countCat (c : Cat) : List Event → Nat
  | [] => 0
  | e :: t => (if e.category = c then 1 else 0) + countCat c t

/-- Outcomes of the backend calls a single `Bind` can issue. The code
discards the result of every device call except `m_indexBuffer->Bind()`
and `m_vertexBuffer->Bind()`; the other outcomes are carried here so that
independence from them can be stated. -/
structure Backend where
  viewportOk : Bool
  vertexShaderOk : Bool
  pixelShaderOk : Bool
  topologyOk : Bool
  inputLayoutOk : Bool
  cullOk : Bool
  fillOk : Bool
  samplersOk : Bool
  texturesOk : Bool
  indexBufferOk : Bool
  vertexBufferOk : Bool
  constantBuffersOk : Bool
deriving DecidableEq, Repr

/-- A backend on which every call succeeds. -/
def backendAllOk : Backend :=
  ⟨true, true, true, true, true, true, true, true, true, true, true, true⟩

/-- The sequence of backend calls `Bind` issues from state `s` (device
non-null), in program order. Each category block of the code reads only
fields that no earlier block writes (each block touches only its own flag
and its own accumulated list), so every block's condition and arguments
are written here against the entry state `s`; the concatenation order is
the literal order of the blocks in the code. -/
def bindTrace (s : RHI_PipelineState) : List Event :=
  (if s.m_viewportDirty then [Event.setViewport s.m_viewport] else []) ++
  (if s.m_vertexShaderDirty then [Event.bindVertexShader s.m_vertexShader] else []) ++
  (if s.m_pixelShaderDirty then [Event.bindPixelShader s.m_pixelShader] else []) ++
  (if s.m_primitiveTopologyDirty then [Event.setPrimitiveTopology s.m_primitiveTopology] else []) ++
  (if s.m_inputLayoutDirty then [Event.setInputLayout s.m_inputLayoutBuffer] else []) ++
  (if s.m_cullModeDirty then [Event.setCullMode s.m_cullMode] else []) ++
  (if s.m_fillModeDirty then [Event.setFillMode s.m_fillMode] else []) ++
  (if s.m_samplersDirty then [Event.bindSamplers 0 s.m_samplers.length s.m_samplers] else []) ++
  (if s.m_texturesDirty then [Event.bindTextures 0 s.m_textures.length s.m_textures] else []) ++
  (if s.m_indexBufferDirty then [Event.bindIndexBuffer s.m_indexBuffer] else []) ++
  (if s.m_vertexBufferDirty then [Event.bindVertexBuffer s.m_vertexBuffer] else []) ++
  (if s.m_constantBufferDirty then
    s.m_constantBuffersInfo.map (fun cb => Event.bindConstantBuffers cb.slot 1 cb.scope cb.buffer)
  else [])

/-- The state `Bind` leaves behind (device non-null): each dirty block
clears its own flag right after its call (a flag that was already clear
stays clear, so after the commit every flag is clear), and the
sampler/texture/constant-buffer blocks release their accumulated lists. -/
def bindStateAfter (s : RHI_PipelineState) : RHI_PipelineState :=
  { s with
    m_viewportDirty := false
    m_vertexShaderDirty := false
    m_pixelShaderDirty := false
    m_primitiveTopologyDirty := false
    m_inputLayoutDirty := false
    m_cullModeDirty := false
    m_fillModeDirty := false
    m_samplers := if s.m_samplersDirty then [] else s.m_samplers
    m_samplersDirty := false
    m_textures := if s.m_texturesDirty then [] else s.m_textures
    m_texturesDirty := false
    m_indexBufferDirty := false
    m_vertexBufferDirty := false
    m_constantBuffersInfo := if s.m_constantBufferDirty then [] else s.m_constantBuffersInfo
    m_constantBufferDirty := false }

/-- `RHI_PipelineState::Bind`. Returns the final state, the trace of
backend calls in issue order, and the boolean result. A null device is an
immediate `false` with no calls. `resultIndexBuffer` / `resultVertexBuffer`
start `true` and are overwritten with the buffer's `Bind()` outcome only
when that category is dirty; the function returns their conjunction — every
other call's outcome is discarded by the code. -/
def RHI_PipelineState.Bind (bk : Backend) (s : RHI_PipelineState) :
    RHI_PipelineState × List Event × Bool :=
  if s.m_rhiDevice = false then
    (s, [], false)
  else
    let resultIndexBuffer := if s.m_indexBufferDirty then bk.indexBufferOk else true
    let resultVertexBuffer := if s.m_vertexBufferDirty then bk.vertexBufferOk else true
    (bindStateAfter s, bindTrace s, resultIndexBuffer && resultVertexBuffer)

/-- One setter invocation on a `RHI_PipelineState` (the public surface of
`RHI_PipelineState.cpp`). -/
inductive Call where
  | setShader (sh : Option RHI_Shader)
  | setIndexBuffer (b : Option Nat)
  | setVertexBuffer (b : Option Nat)
  | setSampler (sp : Option Nat)
  | setTexture (t : Option Nat)
  | setConstantBuffer (b : Option Nat) (slot : Nat) (scope : Buffer_Scope)
  | setPrimitiveTopology (t : Nat)
  | setInputLayout (il : Option D3D11_InputLayout)
  | setCullMode (c : Nat)
  | setFillMode (f : Nat)
  | setViewport (w h : Int)
deriving DecidableEq, Repr

/-- Apply one setter call; `none` models a crash (null dereference inside
`SetConstantBuffer` / `SetInputLayout`). -/
def applyCall (c : Call) (s : RHI_PipelineState) : Option RHI_PipelineState :=
  match c with
  | .setShader sh => some (RHI_PipelineState.SetShader sh s).2
  | .setIndexBuffer b => some (RHI_PipelineState.SetIndexBuffer b s).2
  | .setVertexBuffer b => some (RHI_PipelineState.SetVertexBuffer b s).2
  | .setSampler sp => some (RHI_PipelineState.SetSampler sp s).2
  | .setTexture t => some (RHI_PipelineState.SetTexture t s).2
  | .setConstantBuffer b slot scope => RHI_PipelineState.SetConstantBuffer b slot scope s
  | .setPrimitiveTopology t => some (RHI_PipelineState.SetPrimitiveTopology t s)
  | .setInputLayout il => (RHI_PipelineState.SetInputLayout il s).map (·.2)
  | .setCullMode c => some (RHI_PipelineState.SetCullMode c s)
  | .setFillMode f => some (RHI_PipelineState.SetFillMode f s)
  | .setViewport w h => some (RHI_PipelineState.SetViewport w h s)

/-- Apply a sequence of setter calls. -/
def applyCalls : List Call → RHI_PipelineState → Option RHI_PipelineState
  | [], s => some s
  | c :: cs, s =>
    match applyCall c s with
    | none => none
    | some s' => applyCalls cs s'

/-- The committed backend state that the claims about last-writer-wins
observe: what each constant-buffer slot of the device holds. Only
`Bind_ConstantBuffers` writes it; every other call leaves it unchanged. -/
structure DeviceState where
  constantBuffers : Nat → Option Nat

/-- Effect of one backend call on the committed device state. -/
def applyEventToDevice (d : DeviceState) (e : Event) : DeviceState :=
  match e with
  | .bindConstantBuffers slot _ _ buffer =>
    ⟨fun k => if k = slot then some buffer else d.constantBuffers k⟩
  | _ => d

/-- Commit a trace of backend calls to the device state, in order. -/
def commitTrace (d : DeviceState) (l : List Event) : DeviceState :=
  l.foldl applyEventToDevice d

/-- A device with no constant buffer bound at any slot. -/
def deviceEmpty : DeviceState := ⟨fun _ => none⟩

/-- Expected number of backend calls of each category in one `Bind`:
zero when the flag is clear; one when dirty — except constant buffers,
which get one call per accumulated binding. -/
def expectedCount (s : RHI_PipelineState) : Cat → Nat
  | .viewport => if s.m_viewportDirty then 1 else 0
  | .vertexShader => if s.m_vertexShaderDirty then 1 else 0
  | .pixelShader => if s.m_pixelShaderDirty then 1 else 0
  | .topology => if s.m_primitiveTopologyDirty then 1 else 0
  | .inputLayout => if s.m_inputLayoutDirty then 1 else 0
  | .cullMode => if s.m_cullModeDirty then 1 else 0
  | .fillMode => if s.m_fillModeDirty then 1 else 0
  | .samplers => if s.m_samplersDirty then 1 else 0
  | .textures => if s.m_texturesDirty then 1 else 0
  | .indexBuffer => if s.m_indexBufferDirty then 1 else 0
  | .vertexBuffer => if s.m_vertexBufferDirty then 1 else 0
  | .constantBuffers => if s.m_constantBufferDirty then s.m_constantBuffersInfo.length else 0

lemma countCat_append (c : Cat) (l1 l2 : List Event) :
    countCat c (l1 ++ l2) = countCat c l1 + countCat c l2 := by
  induction l1 with
  | nil => simp [countCat]
  | cons a t ih => simp [countCat, ih]; omega

lemma countCat_if_singleton (c : Cat) (b : Bool) (ev : Event) :
    countCat c (if b then [ev] else []) = if b = true ∧ ev.category = c then 1 else 0 := by
  cases b <;> by_cases h : ev.category = c <;> simp [countCat, h]

lemma countCat_cb_map (c : Cat) (l : List ConstantBufferInfo) :
    countCat c (l.map (fun cb => Event.bindConstantBuffers cb.slot 1 cb.scope cb.buffer)) =
      if Cat.constantBuffers = c then l.length else 0 := by
  induction l with
  | nil => cases c <;> simp [countCat]
  | cons a t ih =>
    by_cases h : Cat.constantBuffers = c
    · simp [countCat, ih, Event.category, h]
      omega
    · simp [countCat, ih, Event.category, h]

/-- Per-category call count of the `Bind` trace. -/
lemma countCat_bindTrace (s : RHI_PipelineState) (c : Cat) :
    countCat c (bindTrace s) = expectedCount s c := by
  have hmap := countCat_cb_map c s.m_constantBuffersInfo
  cases c <;>
    simp [bindTrace, expectedCount, countCat_append, countCat_if_singleton,
      countCat_cb_map, countCat, Event.category, apply_ite (countCat _)]

/-- Ordering relation on events: category rank is non-decreasing. -/
def evLE (e1 e2 : Event) : Prop := e1.rank ≤ e2.rank

lemma pairwise_of_total {α : Type} {R : α → α → Prop} (h : ∀ a b, R a b) :
    ∀ l : List α, l.Pairwise R := by
  intro l
  induction l with
  | nil => exact .nil
  | cons a t ih => exact .cons (fun b _ => h a b) ih

lemma pairwise_rank_append {l1 l2 : List Event} {k : Nat}
    (h1 : l1.Pairwise evLE) (h2 : l2.Pairwise evLE)
    (b1 : ∀ e ∈ l1, e.rank ≤ k) (b2 : ∀ e ∈ l2, k ≤ e.rank) :
    (l1 ++ l2).Pairwise evLE := by
  rw [List.pairwise_append]
  exact ⟨h1, h2, fun a ha b hb => le_trans (b1 a ha) (b2 b hb)⟩

lemma mem_if_singleton_iff {b : Bool} {ev e : Event} :
    e ∈ (if b then [ev] else []) ↔ (b = true ∧ e = ev) := by
  cases b <;> simp

lemma mem_if_map_iff {b : Bool} {l : List ConstantBufferInfo}
    {f : ConstantBufferInfo → Event} {e : Event} :
    e ∈ (if b then l.map f else []) ↔ (b = true ∧ ∃ cb ∈ l, f cb = e) := by
  cases b <;> simp

lemma pairwise_of_const_rank {l : List Event} {i : Nat} (h : ∀ e ∈ l, e.rank = i) :
    l.Pairwise evLE := by
  induction l with
  | nil => exact .nil
  | cons a t ih =>
    refine .cons (fun b hb => ?_) (ih (fun e he => h e (List.mem_cons_of_mem a he)))
    show a.rank ≤ b.rank
    rw [h a (List.mem_cons_self a t), h b (List.mem_cons_of_mem a hb)]

/-- Gluing step for the trace-order proof: a block whose calls all have
rank `i`, followed by an already-ordered tail whose calls all have rank at
least `j ≥ i`, is ordered, and all its calls have rank at least `i`. -/
lemma rank_chain {l1 l2 : List Event} {i j : Nat}
    (h1 : ∀ e ∈ l1, e.rank = i) (hij : i ≤ j)
    (h2 : l2.Pairwise evLE) (hl2 : ∀ e ∈ l2, j ≤ e.rank) :
    ((l1 ++ l2).Pairwise evLE) ∧ (∀ e ∈ l1 ++ l2, i ≤ e.rank) := by
  constructor
  · exact pairwise_rank_append (k := i) (pairwise_of_const_rank h1) h2
      (fun e he => le_of_eq (h1 e he)) (fun e he => le_trans hij (hl2 e he))
  · intro e he
    rcases List.mem_append.mp he with h | h
    · exact le_of_eq (h1 e h).symm
    · exact le_trans hij (hl2 e h)

/-- The `Bind` trace is ordered by the fixed category ranks: any two backend
calls issued by one `Bind` appear in non-decreasing category order. -/
lemma bindTrace_pairwise (s : RHI_PipelineState) : (bindTrace s).Pairwise evLE := by
  unfold bindTrace
  simp only [List.append_assoc]
  have r0 : ∀ e ∈ (if s.m_viewportDirty then [Event.setViewport s.m_viewport] else []),
      e.rank = 0 := by
    intro e he; rw [mem_if_singleton_iff] at he; rw [he.2]; rfl
  have r1 : ∀ e ∈ (if s.m_vertexShaderDirty then [Event.bindVertexShader s.m_vertexShader] else []),
      e.rank = 1 := by
    intro e he; rw [mem_if_singleton_iff] at he; rw [he.2]; rfl
  have r2 : ∀ e ∈ (if s.m_pixelShaderDirty then [Event.bindPixelShader s.m_pixelShader] else []),
      e.rank = 2 := by
    intro e he; rw [mem_if_singleton_iff] at he; rw [he.2]; rfl
  have r3 : ∀ e ∈ (if s.m_primitiveTopologyDirty then [Event.setPrimitiveTopology s.m_primitiveTopology] else []),
      e.rank = 3 := by
    intro e he; rw [mem_if_singleton_iff] at he; rw [he.2]; rfl
  have r4 : ∀ e ∈ (if s.m_inputLayoutDirty then [Event.setInputLayout s.m_inputLayoutBuffer] else []),
      e.rank = 4 := by
    intro e he; rw [mem_if_singleton_iff] at he; rw [he.2]; rfl
  have r5 : ∀ e ∈ (if s.m_cullModeDirty then [Event.setCullMode s.m_cullMode] else []),
      e.rank = 5 := by
    intro e he; rw [mem_if_singleton_iff] at he; rw [he.2]; rfl
  have r6 : ∀ e ∈ (if s.m_fillModeDirty then [Event.setFillMode s.m_fillMode] else []),
      e.rank = 6 := by
    intro e he; rw [mem_if_singleton_iff] at he; rw [he.2]; rfl
  have r7 : ∀ e ∈ (if s.m_samplersDirty then [Event.bindSamplers 0 s.m_samplers.length s.m_samplers] else []),
      e.rank = 7 := by
    intro e he; rw [mem_if_singleton_iff] at he; rw [he.2]; rfl
  have r8 : ∀ e ∈ (if s.m_texturesDirty then [Event.bindTextures 0 s.m_textures.length s.m_textures] else []),
      e.rank = 8 := by
    intro e he; rw [mem_if_singleton_iff] at he; rw [he.2]; rfl
  have r9 : ∀ e ∈ (if s.m_indexBufferDirty then [Event.bindIndexBuffer s.m_indexBuffer] else []),
      e.rank = 9 := by
    intro e he; rw [mem_if_singleton_iff] at he; rw [he.2]; rfl
  have r10 : ∀ e ∈ (if s.m_vertexBufferDirty then [Event.bindVertexBuffer s.m_vertexBuffer] else []),
      e.rank = 10 := by
    intro e he; rw [mem_if_singleton_iff] at he; rw [he.2]; rfl
  have r11 : ∀ e ∈ (if s.m_constantBufferDirty then
      s.m_constantBuffersInfo.map (fun cb => Event.bindConstantBuffers cb.slot 1 cb.scope cb.buffer)
    else []), e.rank = 11 := by
    intro e he
    rcases (mem_if_map_iff).mp he with ⟨_, cb, _, rfl⟩
    rfl
  have h11 : _ ∧ _ := ⟨pairwise_of_const_rank r11, fun e he => le_of_eq (r11 e he).symm⟩
  have h10 := rank_chain r10 (by omega) h11.1 h11.2
  have h9 := rank_chain r9 (by omega) h10.1 h10.2
  have h8 := rank_chain r8 (by omega) h9.1 h9.2
  have h7 := rank_chain r7 (by omega) h8.1 h8.2
  have h6 := rank_chain r6 (by omega) h7.1 h7.2
  have h5 := rank_chain r5 (by omega) h6.1 h6.2
  have h4 := rank_chain r4 (by omega) h5.1 h5.2
  have h3 := rank_chain r3 (by omega) h4.1 h4.2
  have h2 := rank_chain r2 (by omega) h3.1 h3.2
  have h1 := rank_chain r1 (by omega) h2.1 h2.2
  exact (rank_chain r0 (by omega) h1.1 h1.2).1

/-- Invariant of every state reachable from the constructor (device
non-null) through setter calls: the device stays non-null, and whenever
the constant-buffer dirty flag is set the accumulated binding list is
non-empty (only `SetConstantBuffer` / `SetShader` raise the flag, and they
append). -/
def Inv (s : RHI_PipelineState) : Prop :=
  s.m_rhiDevice = true ∧
  (s.m_constantBufferDirty = true → s.m_constantBuffersInfo ≠ [])

lemma inv_construct : Inv (RHI_PipelineState.construct true) := by
  constructor <;> simp [RHI_PipelineState.construct]

lemma inv_applyCall {s s' : RHI_PipelineState} {c : Call}
    (hs : Inv s) (h : applyCall c s = some s') : Inv s' := by
  obtain ⟨hdev, hcb⟩ := hs
  cases c with
  | setShader sh =>
    cases sh with
    | none =>
      simp only [applyCall, RHI_PipelineState.SetShader, Option.some.injEq] at h
      exact h ▸ ⟨hdev, hcb⟩
    | some sh =>
      simp only [applyCall, RHI_PipelineState.SetShader, RHI_PipelineState.SetInputLayout,
        RHI_PipelineState.SetConstantBuffer, Option.some.injEq] at h
      subst h
      cases hcbuf : sh.constantBuffer <;>
        split_ifs <;>
        simp_all [Inv, Option.getD]
  | setIndexBuffer b =>
    cases b <;>
      simp only [applyCall, RHI_PipelineState.SetIndexBuffer, Option.some.injEq] at h <;>
      exact h ▸ ⟨hdev, hcb⟩
  | setVertexBuffer b =>
    cases b <;>
      simp only [applyCall, RHI_PipelineState.SetVertexBuffer, Option.some.injEq] at h <;>
      exact h ▸ ⟨hdev, hcb⟩
  | setSampler sp =>
    cases sp <;>
      simp only [applyCall, RHI_PipelineState.SetSampler, Option.some.injEq] at h <;>
      exact h ▸ ⟨hdev, hcb⟩
  | setTexture t =>
    simp only [applyCall, RHI_PipelineState.SetTexture, Option.some.injEq] at h
    exact h ▸ ⟨hdev, hcb⟩
  | setConstantBuffer b slot scope =>
    cases b with
    | none => simp [applyCall, RHI_PipelineState.SetConstantBuffer] at h
    | some cb =>
      simp only [applyCall, RHI_PipelineState.SetConstantBuffer, Option.some.injEq] at h
      subst h
      exact ⟨hdev, fun _ => by simp⟩
  | setPrimitiveTopology t =>
    simp only [applyCall, RHI_PipelineState.SetPrimitiveTopology] at h
    split_ifs at h <;> simp only [Option.some.injEq] at h <;> exact h ▸ ⟨hdev, hcb⟩
  | setInputLayout il =>
    cases il with
    | none => simp [applyCall, RHI_PipelineState.SetInputLayout] at h
    | some il =>
      simp only [applyCall, RHI_PipelineState.SetInputLayout] at h
      split_ifs at h <;> simp only [Option.map_some', Option.some.injEq] at h <;>
        exact h ▸ ⟨hdev, hcb⟩
  | setCullMode c =>
    simp only [applyCall, RHI_PipelineState.SetCullMode] at h
    split_ifs at h <;> simp only [Option.some.injEq] at h <;> exact h ▸ ⟨hdev, hcb⟩
  | setFillMode f =>
    simp only [applyCall, RHI_PipelineState.SetFillMode] at h
    split_ifs at h <;> simp only [Option.some.injEq] at h <;> exact h ▸ ⟨hdev, hcb⟩
  | setViewport w hh =>
    simp only [applyCall, RHI_PipelineState.SetViewport] at h
    split_ifs at h <;> simp only [Option.some.injEq] at h <;> exact h ▸ ⟨hdev, hcb⟩

lemma inv_applyCalls {cs : List Call} {s s' : RHI_PipelineState}
    (hs : Inv s) (h : applyCalls cs s = some s') : Inv s' := by
  induction cs generalizing s with
  | nil => simp only [applyCalls, Option.some.injEq] at h; exact h ▸ hs
  | cons c cs ih =>
    simp only [applyCalls] at h
    cases hc : applyCall c s with
    | none => rw [hc] at h; exact absurd h (by simp)
    | some s1 => rw [hc] at h; exact ih (inv_applyCall hs hc) h

lemma inv_reachable {cs : List Call} {s : RHI_PipelineState}
    (h : applyCalls cs (RHI_PipelineState.construct true) = some s) : Inv s :=
  inv_applyCalls inv_construct h

/-- With a non-null device, `Bind` runs the commit blocks. -/
lemma bind_eq_of_device {s : RHI_PipelineState} {bk : Backend}
    (hdev : s.m_rhiDevice = true) :
    RHI_PipelineState.Bind bk s =
      (bindStateAfter s, bindTrace s,
        (if s.m_indexBufferDirty then bk.indexBufferOk else true) &&
        (if s.m_vertexBufferDirty then bk.vertexBufferOk else true)) := by
  simp [RHI_PipelineState.Bind, hdev]

lemma dirtyOf_bindStateAfter (s : RHI_PipelineState) (c : Cat) :
    dirtyOf (bindStateAfter s) c = false := by
  cases c <;> rfl

lemma commitTrace_append (d : DeviceState) (l1 l2 : List Event) :
    commitTrace d (l1 ++ l2) = commitTrace (commitTrace d l1) l2 := by
  simp [commitTrace, List.foldl_append]

/-- Committing the per-binding constant-buffer calls of a list that ends
with `(bb, slot, scope)` leaves `bb` bound at `slot`, whatever was
committed before: the later call overwrites. -/
lemma commitTrace_cb_last (d : DeviceState) (l : List ConstantBufferInfo)
    (bb slot : Nat) (scope : Buffer_Scope) :
    (commitTrace d (List.map
        (fun cb => Event.bindConstantBuffers cb.slot 1 cb.scope cb.buffer)
        (l ++ [ConstantBufferInfo.mk bb slot scope]))).constantBuffers slot =
      some bb := by
  rw [List.map_append, commitTrace_append]
  simp [commitTrace, applyEventToDevice]

/-- C1: on a pipeline state with a valid device, `Bind` returns `true` iff
the index-buffer bind and the vertex-buffer bind each either was not
performed (flag clear) or succeeded; and the result is unchanged between
any two backends that agree on those two outcomes, whatever every other
category's outcome is. -/
theorem bind_result_depends_only_on_buffer_binds (s : RHI_PipelineState)
    (b1 b2 : Backend) (hdev : s.m_rhiDevice = true) :
    ((RHI_PipelineState.Bind b1 s).2.2 = true ↔
      ((s.m_indexBufferDirty = true → b1.indexBufferOk = true) ∧
       (s.m_vertexBufferDirty = true → b1.vertexBufferOk = true)))
    ∧ (b1.indexBufferOk = b2.indexBufferOk → b1.vertexBufferOk = b2.vertexBufferOk →
        (RHI_PipelineState.Bind b1 s).2.2 = (RHI_PipelineState.Bind b2 s).2.2) := by
  rw [bind_eq_of_device hdev, bind_eq_of_device hdev]
  constructor
  · cases hib : s.m_indexBufferDirty <;> cases hvb : s.m_vertexBufferDirty <;>
      simp
  · intro hi hv
    rw [hi, hv]

/-- C1 witness: concrete run on a state reaching `Bind` with both buffer
categories dirty, against a backend failing the index-buffer bind. -/
theorem bind_result_depends_only_on_buffer_binds_witness :
    ((RHI_PipelineState.Bind ⟨true, true, true, true, true, true, true, true, true, false, true, true⟩
        (RHI_PipelineState.SetVertexBuffer (some 5)
          (RHI_PipelineState.SetIndexBuffer (some 4) (RHI_PipelineState.construct true)).2).2).2.2 = true ↔
      (((RHI_PipelineState.SetVertexBuffer (some 5)
          (RHI_PipelineState.SetIndexBuffer (some 4) (RHI_PipelineState.construct true)).2).2.m_indexBufferDirty = true →
        false = true) ∧
       ((RHI_PipelineState.SetVertexBuffer (some 5)
          (RHI_PipelineState.SetIndexBuffer (some 4) (RHI_PipelineState.construct true)).2).2.m_vertexBufferDirty = true →
        true = true)))
    ∧ (false = backendAllOk.indexBufferOk → true = backendAllOk.vertexBufferOk →
        (RHI_PipelineState.Bind ⟨true, true, true, true, true, true, true, true, true, false, true, true⟩
          (RHI_PipelineState.SetVertexBuffer (some 5)
            (RHI_PipelineState.SetIndexBuffer (some 4) (RHI_PipelineState.construct true)).2).2).2.2 =
        (RHI_PipelineState.Bind backendAllOk
          (RHI_PipelineState.SetVertexBuffer (some 5)
            (RHI_PipelineState.SetIndexBuffer (some 4) (RHI_PipelineState.construct true)).2).2).2.2) :=
  bind_result_depends_only_on_buffer_binds _ _ backendAllOk rfl

/-- C2: for every state reached from the constructor by a sequence of
setter calls, the backend calls of one `Bind` occur in the fixed category
order (non-decreasing `catRank`, which enumerates viewport, vertex shader,
pixel shader, topology, input layout, cull mode, fill mode, samplers,
textures, index buffer, vertex buffer, constant buffers); a category's
call is issued iff its dirty flag was set; and every dirty flag is clear
after the commit. -/
theorem bind_trace_fixed_order_dirty_gated (calls : List Call) (s : RHI_PipelineState)
    (bk : Backend) (h : applyCalls calls (RHI_PipelineState.construct true) = some s) :
    ((RHI_PipelineState.Bind bk s).2.1).Pairwise evLE
    ∧ (∀ c : Cat, 0 < countCat c (RHI_PipelineState.Bind bk s).2.1 ↔ dirtyOf s c = true)
    ∧ (∀ c : Cat, dirtyOf (RHI_PipelineState.Bind bk s).1 c = false) := by
  obtain ⟨hdev, hcb⟩ := inv_reachable h
  rw [bind_eq_of_device hdev]
  refine ⟨bindTrace_pairwise s, ?_, fun c => dirtyOf_bindStateAfter s c⟩
  intro c
  rw [countCat_bindTrace]
  cases c <;> simp only [expectedCount, dirtyOf] <;> split <;>
    simp_all [List.length_pos]

/-- C2 witness: a concrete setter sequence followed by `Bind`. -/
theorem bind_trace_fixed_order_dirty_gated_witness :
    (applyCalls [Call.setCullMode 1] (RHI_PipelineState.construct true) =
      some (RHI_PipelineState.SetCullMode 1 (RHI_PipelineState.construct true)))
    ∧ (((RHI_PipelineState.Bind backendAllOk
          (RHI_PipelineState.SetCullMode 1 (RHI_PipelineState.construct true))).2.1).Pairwise evLE
       ∧ (∀ c : Cat, 0 < countCat c (RHI_PipelineState.Bind backendAllOk
            (RHI_PipelineState.SetCullMode 1 (RHI_PipelineState.construct true))).2.1 ↔
          dirtyOf (RHI_PipelineState.SetCullMode 1 (RHI_PipelineState.construct true)) c = true)
       ∧ (∀ c : Cat, dirtyOf (RHI_PipelineState.Bind backendAllOk
            (RHI_PipelineState.SetCullMode 1 (RHI_PipelineState.construct true))).1 c = false)) :=
  ⟨rfl, bind_trace_fixed_order_dirty_gated [Call.setCullMode 1] _ backendAllOk rfl⟩

/-- C3 counterexample: the claim says samplers, textures and constant
buffers are each transferred in a single batched backend call per
category. For constant buffers the code loops and issues one
`Bind_ConstantBuffers` call per accumulated binding: two `SetConstantBuffer`
calls followed by one `Bind` produce two constant-buffer backend calls. -/
theorem constant_buffers_one_call_per_item_cex :
    (applyCalls [Call.setConstantBuffer (some 7) 3 Buffer_Scope.global,
                 Call.setConstantBuffer (some 8) 4 Buffer_Scope.global]
        (RHI_PipelineState.construct true)).map
      (fun s => countCat Cat.constantBuffers (RHI_PipelineState.Bind backendAllOk s).2.1) =
      some 2 := by
  rfl

/-- C3 amended: with a valid device, every category other than constant
buffers issues at most one backend call per `Bind` (samplers and textures
in particular are one batched call each), while the constant-buffer
category issues exactly one backend call per accumulated binding. -/
theorem bind_category_call_counts (s : RHI_PipelineState) (bk : Backend)
    (hdev : s.m_rhiDevice = true) :
    (∀ c : Cat, c ≠ Cat.constantBuffers →
      countCat c (RHI_PipelineState.Bind bk s).2.1 ≤ 1)
    ∧ countCat Cat.constantBuffers (RHI_PipelineState.Bind bk s).2.1 =
        (if s.m_constantBufferDirty then s.m_constantBuffersInfo.length else 0) := by
  rw [bind_eq_of_device hdev]
  constructor
  · intro c hc
    rw [countCat_bindTrace]
    cases c <;> simp [expectedCount] <;> split <;> simp_all
  · rw [countCat_bindTrace]
    rfl

/-- C3 amended witness: concrete run with two accumulated constant-buffer
bindings and one sampler. -/
theorem bind_category_call_counts_witness :
    (∀ c : Cat, c ≠ Cat.constantBuffers →
      countCat c (RHI_PipelineState.Bind backendAllOk
        (RHI_PipelineState.SetSampler (some 9)
          ((RHI_PipelineState.SetConstantBuffer (some 8) 4 Buffer_Scope.global
            ((RHI_PipelineState.SetConstantBuffer (some 7) 3 Buffer_Scope.global
              (RHI_PipelineState.construct true)).getD (RHI_PipelineState.construct true))).getD
                (RHI_PipelineState.construct true))).2).2.1 ≤ 1)
    ∧ countCat Cat.constantBuffers (RHI_PipelineState.Bind backendAllOk
        (RHI_PipelineState.SetSampler (some 9)
          ((RHI_PipelineState.SetConstantBuffer (some 8) 4 Buffer_Scope.global
            ((RHI_PipelineState.SetConstantBuffer (some 7) 3 Buffer_Scope.global
              (RHI_PipelineState.construct true)).getD (RHI_PipelineState.construct true))).getD
                (RHI_PipelineState.construct true))).2).2.1 =
      (if (RHI_PipelineState.SetSampler (some 9)
          ((RHI_PipelineState.SetConstantBuffer (some 8) 4 Buffer_Scope.global
            ((RHI_PipelineState.SetConstantBuffer (some 7) 3 Buffer_Scope.global
              (RHI_PipelineState.construct true)).getD (RHI_PipelineState.construct true))).getD
                (RHI_PipelineState.construct true))).2.m_constantBufferDirty
       then (RHI_PipelineState.SetSampler (some 9)
          ((RHI_PipelineState.SetConstantBuffer (some 8) 4 Buffer_Scope.global
            ((RHI_PipelineState.SetConstantBuffer (some 7) 3 Buffer_Scope.global
              (RHI_PipelineState.construct true)).getD (RHI_PipelineState.construct true))).getD
                (RHI_PipelineState.construct true))).2.m_constantBuffersInfo.length
       else 0) :=
  bind_category_call_counts _ backendAllOk rfl

/-- C4 counterexample: no-op write elision does not hold for every setter.
After `SetVertexBuffer(5)` and a successful `Bind`, the stored vertex
buffer is still `5` and its dirty flag is clear; calling
`SetVertexBuffer(5)` again — the argument equal to the stored value —
raises the flag (the setter has no value comparison), so the next `Bind`
re-issues the vertex-buffer bind. -/
theorem noop_write_elision_cex_vertex_buffer :
    ((RHI_PipelineState.Bind backendAllOk
        (RHI_PipelineState.SetVertexBuffer (some 5)
          (RHI_PipelineState.construct true)).2).1.m_vertexBuffer = some 5)
    ∧ ((RHI_PipelineState.Bind backendAllOk
        (RHI_PipelineState.SetVertexBuffer (some 5)
          (RHI_PipelineState.construct true)).2).1.m_vertexBufferDirty = false)
    ∧ ((RHI_PipelineState.SetVertexBuffer (some 5)
        (RHI_PipelineState.Bind backendAllOk
          (RHI_PipelineState.SetVertexBuffer (some 5)
            (RHI_PipelineState.construct true)).2).1).2.m_vertexBufferDirty = true) := by
  refine ⟨rfl, rfl, rfl⟩

/-- C4 amended: no-op write elision holds exactly for the value-comparing
setters — `SetPrimitiveTopology`, `SetCullMode`, `SetFillMode`,
`SetViewport` (which compares width and height) and `SetInputLayout`
(which reports `false` and changes nothing when the layout is already
active); for these, a repeated identical call leaves the state — hence
every dirty flag and the next `Bind`'s calls — unchanged. The
buffer/sampler/texture/constant-buffer/shader setters have no such
comparison. -/
theorem noop_write_elision_value_compared_setters (s : RHI_PipelineState)
    (t c f : Nat) (w h : Int) (il : D3D11_InputLayout) :
    (s.m_primitiveTopology = t → RHI_PipelineState.SetPrimitiveTopology t s = s)
    ∧ (s.m_cullMode = c → RHI_PipelineState.SetCullMode c s = s)
    ∧ (s.m_fillMode = f → RHI_PipelineState.SetFillMode f s = s)
    ∧ (s.m_viewport.width = w → s.m_viewport.height = h →
        RHI_PipelineState.SetViewport w h s = s)
    ∧ (s.m_inputLayout = il.inputLayout →
        RHI_PipelineState.SetInputLayout (some il) s = some (false, s))
    ∧ (RHI_PipelineState.SetCullMode c (RHI_PipelineState.SetCullMode c s) =
        RHI_PipelineState.SetCullMode c s) := by
  refine ⟨?_, ?_, ?_, ?_, ?_, ?_⟩
  · intro ht; simp [RHI_PipelineState.SetPrimitiveTopology, ht]
  · intro hc; simp [RHI_PipelineState.SetCullMode, hc]
  · intro hf; simp [RHI_PipelineState.SetFillMode, hf]
  · intro hw hh; simp [RHI_PipelineState.SetViewport, hw, hh]
  · intro hil; simp [RHI_PipelineState.SetInputLayout, hil]
  · by_cases hc : s.m_cullMode = c
    · simp [RHI_PipelineState.SetCullMode, hc]
    · simp [RHI_PipelineState.SetCullMode, hc]

/-- C4 amended witness: concrete repeated `SetCullMode` and a repeated
viewport write. -/
theorem noop_write_elision_value_compared_setters_witness :
    (((RHI_PipelineState.construct true).m_primitiveTopology = 0 →
        RHI_PipelineState.SetPrimitiveTopology 0 (RHI_PipelineState.construct true) =
          RHI_PipelineState.construct true)
      ∧ ((RHI_PipelineState.construct true).m_cullMode = 0 →
          RHI_PipelineState.SetCullMode 0 (RHI_PipelineState.construct true) =
            RHI_PipelineState.construct true)
      ∧ ((RHI_PipelineState.construct true).m_fillMode = 0 →
          RHI_PipelineState.SetFillMode 0 (RHI_PipelineState.construct true) =
            RHI_PipelineState.construct true)
      ∧ ((RHI_PipelineState.construct true).m_viewport.width = 0 →
          (RHI_PipelineState.construct true).m_viewport.height = 0 →
          RHI_PipelineState.SetViewport 0 0 (RHI_PipelineState.construct true) =
            RHI_PipelineState.construct true)
      ∧ ((RHI_PipelineState.construct true).m_inputLayout = D3D11_InputLayout.inputLayout ⟨0, some 2⟩ →
          RHI_PipelineState.SetInputLayout (some ⟨0, some 2⟩) (RHI_PipelineState.construct true) =
            some (false, RHI_PipelineState.construct true))
      ∧ (RHI_PipelineState.SetCullMode 0
          (RHI_PipelineState.SetCullMode 0 (RHI_PipelineState.construct true)) =
          RHI_PipelineState.SetCullMode 0 (RHI_PipelineState.construct true))) :=
  noop_write_elision_value_compared_setters (RHI_PipelineState.construct true) 0 0 0 0 0 ⟨0, some 2⟩

/-- C5: appending two constant-buffer bindings for the same slot before a
single `Bind` commits, at that slot of the backend, exactly the
last-appended buffer; and the accumulated binding list is released by the
commit. (`Bind` issues the per-binding calls in append order, so the later
call overwrites the earlier one at the device.) -/
theorem constant_buffer_same_slot_last_wins (s s1 s2 : RHI_PipelineState)
    (a b : Nat) (slot : Nat) (scope : Buffer_Scope) (bk : Backend) (d : DeviceState)
    (hdev : s.m_rhiDevice = true)
    (h1 : RHI_PipelineState.SetConstantBuffer (some a) slot scope s = some s1)
    (h2 : RHI_PipelineState.SetConstantBuffer (some b) slot scope s1 = some s2) :
    ((commitTrace d (RHI_PipelineState.Bind bk s2).2.1).constantBuffers slot = some b)
    ∧ ((RHI_PipelineState.Bind bk s2).1.m_constantBuffersInfo = []) := by
  simp only [RHI_PipelineState.SetConstantBuffer, Option.some.injEq] at h1 h2
  subst h1; subst h2
  constructor
  · simp only [RHI_PipelineState.Bind, hdev, Bool.true_eq_false, if_false, bindTrace,
      ite_true, List.append_assoc, commitTrace_append]
    rw [← List.append_assoc]
    exact commitTrace_cb_last _ _ b slot scope
  · simp [RHI_PipelineState.Bind, hdev, bindStateAfter]

/-- C5 witness: `bufA = 7`, `bufB = 8`, slot 3: after the commit the
device's slot 3 holds buffer 8 and the accumulated list is empty. -/
theorem constant_buffer_same_slot_last_wins_witness :
    ((commitTrace deviceEmpty (RHI_PipelineState.Bind backendAllOk
        ((RHI_PipelineState.SetConstantBuffer (some 8) 3 Buffer_Scope.global
          ((RHI_PipelineState.SetConstantBuffer (some 7) 3 Buffer_Scope.global
            (RHI_PipelineState.construct true)).getD (RHI_PipelineState.construct true))).getD
              (RHI_PipelineState.construct true))).2.1).constantBuffers 3 = some 8)
    ∧ ((RHI_PipelineState.Bind backendAllOk
        ((RHI_PipelineState.SetConstantBuffer (some 8) 3 Buffer_Scope.global
          ((RHI_PipelineState.SetConstantBuffer (some 7) 3 Buffer_Scope.global
            (RHI_PipelineState.construct true)).getD (RHI_PipelineState.construct true))).getD
              (RHI_PipelineState.construct true))).1.m_constantBuffersInfo = []) :=
  constant_buffer_same_slot_last_wins (RHI_PipelineState.construct true) _ _ 7 8 3
    Buffer_Scope.global backendAllOk deviceEmpty rfl rfl rfl

/-- C6 counterexample: not every setter rejects null leaving the state
unchanged. `SetConstantBuffer` is `void`-returning and dereferences its
argument without a null check (`constantBuffer->GetBuffer()`), so a null
argument is a crash (modelled `none`), not a rejected call with the state
preserved. -/
theorem null_setter_cex_constant_buffer :
    (RHI_PipelineState.SetConstantBuffer none 3 Buffer_Scope.global
        (RHI_PipelineState.construct true) = none)
    ∧ (RHI_PipelineState.SetConstantBuffer none 3 Buffer_Scope.global
        (RHI_PipelineState.construct true) ≠ some (RHI_PipelineState.construct true)) := by
  exact ⟨rfl, by simp [RHI_PipelineState.SetConstantBuffer]⟩

/-- C6 amended: `SetShader`, `SetIndexBuffer`, `SetVertexBuffer` and
`SetSampler` reject a null argument, returning `false` with the whole
state unchanged; `SetTexture` accepts null as an explicit
unbind-at-this-slot marker appended in call order; `SetConstantBuffer`
and `SetInputLayout` perform no null check and dereference the argument
(a crash, modelled `none`), so they neither return failure nor preserve
the state on null. -/
theorem null_argument_setter_behavior (s : RHI_PipelineState) (slot : Nat)
    (scope : Buffer_Scope) (t : Option Nat) :
    (RHI_PipelineState.SetShader none s = (false, s))
    ∧ (RHI_PipelineState.SetIndexBuffer none s = (false, s))
    ∧ (RHI_PipelineState.SetVertexBuffer none s = (false, s))
    ∧ (RHI_PipelineState.SetSampler none s = (false, s))
    ∧ (RHI_PipelineState.SetTexture t s =
        (true, { s with m_textures := s.m_textures ++ [t], m_texturesDirty := true }))
    ∧ (RHI_PipelineState.SetConstantBuffer none slot scope s = none)
    ∧ (RHI_PipelineState.SetInputLayout none s = none) :=
  ⟨rfl, rfl, rfl, rfl, rfl, rfl, rfl⟩

end Directus

namespace Spartan

/-- Modelled from the spec: `RHI_Viewport` with its `IsDefined()` predicate
(the header is not under `src/`; the spec says absence of a pinned viewport
means the state is resolved per-draw). The float fields are embedded as
`Int`; definedness is carried as an attribute of the snapshot, which is all
the constructor branches on. -/
structure RHI_Viewport where
  x : Int
  y : Int
  width : Int
  height : Int
  depth_min : Int
  depth_max : Int
  defined : Bool
deriving DecidableEq, Repr

/-- `RHI_Viewport::IsDefined()`. -/
def RHI_Viewport.IsDefined (v : RHI_Viewport) : Bool := v.defined

/-- Modelled from the spec: `Math::Rectangle` with its `IsDefined()`,
`Width()` and `Height()` accessors (the header is not under `src/`; the
spec says an absent scissor means "full viewport, no clipping"). Width and
height are the usual extents of a left/top/right/bottom rectangle. -/
structure Rectangle where
  left : Int
  top : Int
  right : Int
  bottom : Int
  defined : Bool
deriving DecidableEq, Repr

/-- `Rectangle::IsDefined()`. -/
def Rectangle.IsDefined (r : Rectangle) : Bool := r.defined

/-- `Rectangle::Width()`. -/
def Rectangle.Width (r : Rectangle) : Int := r.right - r.left

/-- `Rectangle::Height()`. -/
def Rectangle.Height (r : Rectangle) : Int := r.bottom - r.top

/-- `RHI_Shader` as consumed by the pipeline constructor: `GetResource()`
(the shader module handle) and `GetEntryPoint()` (a `const char*`), both
possibly null. -/
structure RHI_Shader where
  resource : Option Nat
  entryPoint : Option Nat
deriving DecidableEq, Repr

/-- The fields of the Spartan `RHI_PipelineState` snapshot that the
pipeline constructor's control flow and the claims read. The remaining
baked state (rasterizer/blend/depth-stencil descriptions, render-target
formats, vertex attributes) is translated by straight-line code with no
early return and no observable effect on the claims. -/
structure RHI_PipelineState where
  viewport : RHI_Viewport
  dynamic_scissor : Bool
  scissor : Rectangle
  shader_vertex : Option RHI_Shader
  shader_pixel : Option RHI_Shader
  vertex_buffer_stride : Nat
deriving DecidableEq, Repr

/-- The two dynamic states the constructor can request. -/
inductive VkDynamicState where
  | viewport
  | scissor
deriving DecidableEq, Repr

/-- The baked scissor rectangle (`VkRect2D`): offset and extent. The code
casts the float viewport extents to `uint32_t`; with integer-embedded
floats the cast is the identity. -/
structure VkRect2D where
  offset_x : Int
  offset_y : Int
  extent_width : Int
  extent_height : Int
deriving DecidableEq, Repr

/-- The native calls the constructor can issue that create objects. -/
inductive VkCallEvent where
  | createPipelineLayout
  | createGraphicsPipelines
deriving DecidableEq, Repr

/-- Outcomes of the two native creation calls. -/
structure VulkanEnv where
  createPipelineLayoutOk : Bool
  createGraphicsPipelinesOk : Bool
deriving DecidableEq, Repr

/-- Observable result of running the `RHI_Pipeline` constructor: the
resolved dynamic-state list and baked scissor (the locals fed into the
pipeline create-info), the number of shader stages assembled, the two
native handles the object owns (`m_pipeline_layout`, `m_pipeline`; both
stay `none` on an aborted construction), and the native creation calls
issued. -/
structure RHI_Pipeline where
  dynamic_states : List VkDynamicState
  scissor : VkRect2D
  shader_stage_count : Nat
  pipeline_layout : Option Nat
  pipeline : Option Nat
  calls : List VkCallEvent
deriving DecidableEq, Repr

/-- `RHI_Pipeline::RHI_Pipeline(rhi_device, pipeline_state)` for the
explicit-object backend. In source order: (1) resolve the dynamic-state
list — viewport is dynamic when the snapshot's viewport is not defined,
scissor when `dynamic_scissor` is set — and bake the scissor rectangle —
full viewport extent at offset (0,0) when the snapshot's scissor is not
defined, the snapshot's rectangle otherwise; (2) validate the vertex
shader: a null shader object, or a null module or entry point, logs an
error and returns early (native handles stay null, nothing was created);
(3) validate the pixel shader only if one is present (its null module /
entry point also aborts), a pipeline with no pixel shader proceeds with
one stage; (4) create the pipeline layout — on failure return early with
the layout handle null; (5) create the graphics pipeline — its failure is
logged but not an early return, leaving `m_pipeline` null. -/
def RHI_Pipeline.construct (env : VulkanEnv) (st : RHI_PipelineState) : RHI_Pipeline :=
  let dynamic_states :=
    (if st.viewport.IsDefined = false then [VkDynamicState.viewport] else []) ++
    (if st.dynamic_scissor then [VkDynamicState.scissor] else [])
  let scissor : VkRect2D :=
    if st.scissor.IsDefined = false then
      ⟨0, 0, st.viewport.width, st.viewport.height⟩
    else
      ⟨st.scissor.left, st.scissor.top, st.scissor.Width, st.scissor.Height⟩
  let aborted : RHI_Pipeline :=
    { dynamic_states := dynamic_states
      scissor := scissor
      shader_stage_count := 0
      pipeline_layout := none
      pipeline := none
      calls := [] }
  let finish : Nat → RHI_Pipeline := fun stage_count =>
    if env.createPipelineLayoutOk = false then
      { dynamic_states := dynamic_states
        scissor := scissor
        shader_stage_count := stage_count
        pipeline_layout := none
        pipeline := none
        calls := [VkCallEvent.createPipelineLayout] }
    else
      { dynamic_states := dynamic_states
        scissor := scissor
        shader_stage_count := stage_count
        pipeline_layout := some 1
        pipeline := if env.createGraphicsPipelinesOk then some 1 else none
        calls := [VkCallEvent.createPipelineLayout, VkCallEvent.createGraphicsPipelines] }
  match st.shader_vertex with
  | none => aborted
  | some vs =>
    if vs.resource.isNone || vs.entryPoint.isNone then aborted
    else
      match st.shader_pixel with
      | some ps =>
        if ps.resource.isNone || ps.entryPoint.isNone then aborted
        else finish 2
      | none => finish 1

/-- The GPU-side events of `RHI_Pipeline::~RHI_Pipeline`, in source order:
`Queue_WaitAll()` first, then `vkDestroyPipeline`, then
`vkDestroyPipelineLayout`. -/
inductive GpuEvent where
  | queueWaitAll
  | destroyPipeline
  | destroyPipelineLayout
deriving DecidableEq, Repr

/-- The destructor's event sequence. -/
def destructorTrace : List GpuEvent :=
  [GpuEvent.queueWaitAll, GpuEvent.destroyPipeline, GpuEvent.destroyPipelineLayout]

/-- Observer for the destroy-while-in-use property: `workOutstanding` says
queued GPU work referencing the pipeline has not completed;
`Queue_WaitAll` blocks until it has; a destroy performed while work is
outstanding sets the violation flag. -/
structure GpuState where
  workOutstanding : Bool
  pipelineReleased : Bool
  layoutReleased : Bool
  releasedWhileInUse : Bool
deriving DecidableEq, Repr

/-- Effect of one destructor event on the observer. -/
def gpuStep (g : GpuState) : GpuEvent → GpuState
  | .queueWaitAll => { g with workOutstanding := false }
  | .destroyPipeline =>
    { g with
      pipelineReleased := true
      releasedWhileInUse := g.releasedWhileInUse || g.workOutstanding }
  | .destroyPipelineLayout =>
    { g with
      layoutReleased := true
      releasedWhileInUse := g.releasedWhileInUse || g.workOutstanding }

/-- Run the destructor's event sequence against the observer. -/
def runDestructor (g : GpuState) : GpuState :=
  destructorTrace.foldl gpuStep g

/-- C7: whatever GPU work is outstanding when destruction starts, the
destructor first waits for all of it (the idle-wait), and only then
releases the native pipeline and pipeline layout: after the run both
handles are released, the wait has completed, and no release ever happened
while referencing work was outstanding. -/
theorem pipeline_destructor_waits_before_release (w : Bool) :
    runDestructor ⟨w, false, false, false⟩ =
      ⟨false, true, true, false⟩ := by
  cases w <;> rfl

/-- The dynamic-state list and the baked scissor rectangle are computed at
the top of the constructor, before any validation or early return, so they
are the same in every branch. -/
lemma construct_viewport_scissor_eq (env : VulkanEnv) (st : RHI_PipelineState) :
    ((RHI_Pipeline.construct env st).dynamic_states =
      (if st.viewport.IsDefined = false then [VkDynamicState.viewport] else []) ++
      (if st.dynamic_scissor then [VkDynamicState.scissor] else []))
    ∧ ((RHI_Pipeline.construct env st).scissor =
      (if st.scissor.IsDefined = false then
        (⟨0, 0, st.viewport.width, st.viewport.height⟩ : VkRect2D)
      else
        ⟨st.scissor.left, st.scissor.top, st.scissor.Width, st.scissor.Height⟩)) := by
  unfold RHI_Pipeline.construct
  cases st.shader_vertex with
  | none => exact ⟨rfl, rfl⟩
  | some vs =>
    dsimp only
    cases vs.resource.isNone || vs.entryPoint.isNone with
    | true => exact ⟨rfl, rfl⟩
    | false =>
      cases st.shader_pixel with
      | none =>
        dsimp only
        cases env.createPipelineLayoutOk <;> exact ⟨rfl, rfl⟩
      | some ps =>
        dsimp only
        cases ps.resource.isNone || ps.entryPoint.isNone with
        | true => exact ⟨rfl, rfl⟩
        | false => cases env.createPipelineLayoutOk <;> exact ⟨rfl, rfl⟩

/-- C8: for every environment and snapshot, if the snapshot's viewport is
not defined then viewport is placed in the pipeline's dynamic-state list,
and if the snapshot's scissor is not defined then the baked scissor equals
the full viewport extent at offset (0,0). -/
theorem pipeline_ctor_dynamic_viewport_and_default_scissor (env : VulkanEnv)
    (st : RHI_PipelineState) :
    (st.viewport.IsDefined = false →
      VkDynamicState.viewport ∈ (RHI_Pipeline.construct env st).dynamic_states)
    ∧ (st.scissor.IsDefined = false →
      (RHI_Pipeline.construct env st).scissor =
        ⟨0, 0, st.viewport.width, st.viewport.height⟩) := by
  obtain ⟨hds, hsc⟩ := construct_viewport_scissor_eq env st
  constructor
  · intro hv
    rw [hds, if_pos hv]
    exact List.mem_append_left _ (List.mem_singleton.mpr rfl)
  · intro hs
    rw [hsc, if_pos hs]

/-- C8 witness: a snapshot with neither viewport nor scissor pinned. -/
theorem pipeline_ctor_dynamic_viewport_and_default_scissor_witness :
    ((⟨⟨0, 0, 640, 480, 0, 1, false⟩, false, ⟨0, 0, 0, 0, false⟩,
        some ⟨some 3, some 4⟩, none, 20⟩ : RHI_PipelineState).viewport.IsDefined = false →
      VkDynamicState.viewport ∈ (RHI_Pipeline.construct ⟨true, true⟩
        ⟨⟨0, 0, 640, 480, 0, 1, false⟩, false, ⟨0, 0, 0, 0, false⟩,
          some ⟨some 3, some 4⟩, none, 20⟩).dynamic_states)
    ∧ ((⟨⟨0, 0, 640, 480, 0, 1, false⟩, false, ⟨0, 0, 0, 0, false⟩,
        some ⟨some 3, some 4⟩, none, 20⟩ : RHI_PipelineState).scissor.IsDefined = false →
      (RHI_Pipeline.construct ⟨true, true⟩
        ⟨⟨0, 0, 640, 480, 0, 1, false⟩, false, ⟨0, 0, 0, 0, false⟩,
          some ⟨some 3, some 4⟩, none, 20⟩).scissor =
        ⟨0, 0, (⟨⟨0, 0, 640, 480, 0, 1, false⟩, false, ⟨0, 0, 0, 0, false⟩,
          some ⟨some 3, some 4⟩, none, 20⟩ : RHI_PipelineState).viewport.width,
          (⟨⟨0, 0, 640, 480, 0, 1, false⟩, false, ⟨0, 0, 0, 0, false⟩,
            some ⟨some 3, some 4⟩, none, 20⟩ : RHI_PipelineState).viewport.height⟩) :=
  pipeline_ctor_dynamic_viewport_and_default_scissor ⟨true, true⟩ _

/-- C10: a snapshot whose vertex shader is null, or whose vertex shader
module or entry point is null, aborts construction before any native
object is created: both handles stay null and no creation call is issued.
A null pixel shader does not abort: with a valid vertex shader the
constructor proceeds to create the layout and assembles exactly one
shader stage. -/
theorem pipeline_ctor_null_shader_aborts (env : VulkanEnv) (st : RHI_PipelineState) :
    (st.shader_vertex = none →
      (RHI_Pipeline.construct env st).pipeline = none
      ∧ (RHI_Pipeline.construct env st).pipeline_layout = none
      ∧ (RHI_Pipeline.construct env st).calls = [])
    ∧ (∀ vs, st.shader_vertex = some vs →
        (vs.resource = none ∨ vs.entryPoint = none) →
      (RHI_Pipeline.construct env st).pipeline = none
      ∧ (RHI_Pipeline.construct env st).pipeline_layout = none
      ∧ (RHI_Pipeline.construct env st).calls = [])
    ∧ (∀ vs, st.shader_vertex = some vs →
        vs.resource ≠ none → vs.entryPoint ≠ none → st.shader_pixel = none →
      (RHI_Pipeline.construct env st).shader_stage_count = 1
      ∧ VkCallEvent.createPipelineLayout ∈ (RHI_Pipeline.construct env st).calls) := by
  refine ⟨?_, ?_, ?_⟩
  · intro hv
    unfold RHI_Pipeline.construct
    rw [hv]
    exact ⟨rfl, rfl, rfl⟩
  · intro vs hv hbad
    unfold RHI_Pipeline.construct
    rw [hv]
    dsimp only
    have hb : (vs.resource.isNone || vs.entryPoint.isNone) = true := by
      rcases hbad with h | h <;> simp [h]
    rw [hb]
    exact ⟨rfl, rfl, rfl⟩
  · intro vs hv hres hentry hps
    obtain ⟨r, hr⟩ := Option.ne_none_iff_exists'.mp hres
    obtain ⟨en, hen⟩ := Option.ne_none_iff_exists'.mp hentry
    unfold RHI_Pipeline.construct
    rw [hv, hps]
    dsimp only
    rw [hr, hen]
    constructor
    · cases env.createPipelineLayoutOk <;> rfl
    · cases env.createPipelineLayoutOk <;> simp

/-- C10 witness: a snapshot with a null vertex shader aborts; a snapshot
with a valid vertex shader and no pixel shader proceeds with one stage. -/
theorem pipeline_ctor_null_shader_aborts_witness :
    ((RHI_Pipeline.construct ⟨true, true⟩
        ⟨⟨0, 0, 640, 480, 0, 1, true⟩, false, ⟨0, 0, 0, 0, true⟩, none, none, 20⟩).pipeline = none
      ∧ (RHI_Pipeline.construct ⟨true, true⟩
        ⟨⟨0, 0, 640, 480, 0, 1, true⟩, false, ⟨0, 0, 0, 0, true⟩, none, none, 20⟩).pipeline_layout = none
      ∧ (RHI_Pipeline.construct ⟨true, true⟩
        ⟨⟨0, 0, 640, 480, 0, 1, true⟩, false, ⟨0, 0, 0, 0, true⟩, none, none, 20⟩).calls = [])
    ∧ ((RHI_Pipeline.construct ⟨true, true⟩
        ⟨⟨0, 0, 640, 480, 0, 1, true⟩, false, ⟨0, 0, 0, 0, true⟩, some ⟨some 3, some 4⟩, none, 20⟩).shader_stage_count = 1
      ∧ VkCallEvent.createPipelineLayout ∈ (RHI_Pipeline.construct ⟨true, true⟩
        ⟨⟨0, 0, 640, 480, 0, 1, true⟩, false, ⟨0, 0, 0, 0, true⟩, some ⟨some 3, some 4⟩, none, 20⟩).calls) :=
  ⟨(pipeline_ctor_null_shader_aborts ⟨true, true⟩ _).1 rfl,
   (pipeline_ctor_null_shader_aborts ⟨true, true⟩ _).2.2 ⟨some 3, some 4⟩ rfl
     (by simp) (by simp) rfl⟩

end Spartan

namespace SpartanD3D11

/-- Result of one `D3D11CreateDevice` attempt: success, the specific
`DXGI_ERROR_SDK_COMPONENT_MISSING` failure, or any other failing
`HRESULT`. -/
inductive D3DResult where
  | success
  | sdkComponentMissing
  | otherFailure
deriving DecidableEq, Repr

/-- The `FAILED(hr)` macro: every non-success result is a failure
(`DXGI_ERROR_SDK_COMPONENT_MISSING` included). -/
def FAILED (r : D3DResult) : Bool := r ≠ D3DResult.success

/-- Environment of one `RHI_Device` construction: whether adapter
detection finds a primary physical device, the outcome of
`D3D11CreateDevice` as a function of whether the debug flag is in the
device flags, and the outcome of the `ID3DUserDefinedAnnotation`
`QueryInterface`. -/
structure D3DEnv where
  hasAdapter : Bool
  createDevice : Bool → D3DResult
  annotationQueryOk : Bool

/-- Observable outcome of the constructor: the `m_initialized` flag, the
number of `LOG_WARNING` messages emitted, and the debug-flag value of each
`D3D11CreateDevice` attempt, in order. -/
structure DeviceOutcome where
  initialized : Bool
  warnings : Nat
  createAttempts : List Bool
deriving DecidableEq, Repr

/-- `RHI_Device::RHI_Device(context)` for the D3D11 backend, in source
order: adapter detection (no primary adapter: early return, never
initialized); `D3D11CreateDevice` with the debug flag iff
`m_rhi_context->debug` is set; if the result is exactly
`DXGI_ERROR_SDK_COMPONENT_MISSING`, log one warning, clear the debug bit
from the local device flags only, and retry exactly once; if the final
result is a failure, early return; feature-level logging and the
multithread-protection block (compile-time disabled by
`multithread_protection = false`) touch no modelled state; the annotation
`QueryInterface` still runs whenever `m_rhi_context->debug` is set (the
retry does not clear it) and its failure is an early return; otherwise
`m_initialized = true`. -/
def RHI_Device.construct (debug : Bool) (env : D3DEnv) : DeviceOutcome :=
  if env.hasAdapter = false then
    { initialized := false, warnings := 0, createAttempts := [] }
  else
    let r1 := env.createDevice debug
    let retried : D3DResult × Nat × List Bool :=
      if r1 = D3DResult.sdkComponentMissing then
        (env.createDevice false, 1, [debug, false])
      else
        (r1, 0, [debug])
    if FAILED retried.1 then
      { initialized := false, warnings := retried.2.1, createAttempts := retried.2.2 }
    else
      if debug && !env.annotationQueryOk then
        { initialized := false, warnings := retried.2.1, createAttempts := retried.2.2 }
      else
        { initialized := true, warnings := retried.2.1, createAttempts := retried.2.2 }

/-- C9 counterexample: the claim says construction succeeds whenever the
retry succeeds. Environment: adapter present, creation with the debug flag
reports the missing SDK component, creation without it succeeds, but the
annotation-interface query (which still runs, because the context debug
flag is not cleared by the retry) fails: the retry succeeds yet the device
ends up not initialized. -/
theorem device_debug_retry_cex_annotation_failure :
    ((⟨true, fun dbg => if dbg then D3DResult.sdkComponentMissing else D3DResult.success,
        false⟩ : D3DEnv).createDevice false = D3DResult.success)
    ∧ ((RHI_Device.construct true
        ⟨true, fun dbg => if dbg then D3DResult.sdkComponentMissing else D3DResult.success,
          false⟩).createAttempts = [true, false])
    ∧ ((RHI_Device.construct true
        ⟨true, fun dbg => if dbg then D3DResult.sdkComponentMissing else D3DResult.success,
          false⟩).initialized = false) :=
  ⟨rfl, rfl, rfl⟩

/-- C9 amended: when debug instrumentation is requested, an adapter is
present, and the first creation attempt reports the missing debug SDK
component, the device retries creation exactly once without the debug
flag and logs exactly one warning — the missing component itself is never
a hard failure; overall construction succeeds iff the retry succeeds and
the subsequent debug-annotation interface query succeeds (the context
debug flag stays set, so that query still runs and its failure fails
construction). -/
theorem device_debug_retry_behavior (env : D3DEnv)
    (hadapter : env.hasAdapter = true)
    (hmissing : env.createDevice true = D3DResult.sdkComponentMissing) :
    ((RHI_Device.construct true env).createAttempts = [true, false])
    ∧ ((RHI_Device.construct true env).warnings = 1)
    ∧ ((RHI_Device.construct true env).initialized = true ↔
        (env.createDevice false = D3DResult.success ∧ env.annotationQueryOk = true)) := by
  unfold RHI_Device.construct
  cases hr : env.createDevice false <;>
    cases ha : env.annotationQueryOk <;>
    simp [hadapter, hmissing, hr, ha, FAILED]

/-- C9 amended witness: concrete environment where the retry and the
annotation query both succeed. -/
theorem device_debug_retry_behavior_witness :
    ((RHI_Device.construct true
        ⟨true, fun dbg => if dbg then D3DResult.sdkComponentMissing else D3DResult.success,
          true⟩).createAttempts = [true, false])
    ∧ ((RHI_Device.construct true
        ⟨true, fun dbg => if dbg then D3DResult.sdkComponentMissing else D3DResult.success,
          true⟩).warnings = 1)
    ∧ ((RHI_Device.construct true
        ⟨true, fun dbg => if dbg then D3DResult.sdkComponentMissing else D3DResult.success,
          true⟩).initialized = true ↔
        ((⟨true, fun dbg => if dbg then D3DResult.sdkComponentMissing else D3DResult.success,
            true⟩ : D3DEnv).createDevice false = D3DResult.success
          ∧ (⟨true, fun dbg => if dbg then D3DResult.sdkComponentMissing else D3DResult.success,
              true⟩ : D3DEnv).annotationQueryOk = true)) :=
  device_debug_retry_behavior
    ⟨true, fun dbg => if dbg then D3DResult.sdkComponentMissing else D3DResult.success, true⟩
    rfl rfl

end SpartanD3D11
